import Mathlib

/-!
# Verification of the littlesnow real-time monitoring dashboard core

Shallow embedding of the ingestion / presentation core of the
`littlesnow` dashboard:

* `src/src/monitor/frontend/service/websocket-service.js`
  — connection lifecycle, retry/backoff, event emitter;
* `src/unnamed/part_003` (the Vue dashboard component)
  — snapshot merging, bounded time-series buffers, offline marking;
* `src/src/monitor/frontend/component/LatencyChart.js`
  — render fingerprint / dedup layer;
* `src/unnamed/part_002` (the adapter-card component)
  — declarative per-metric color classification.

JS numbers are modelled as `ℚ`.  Wall-clock instants are passed as
explicit parameters expressed in seconds: where the source divides
`Date.now()` by 1000 the embedding receives the instant directly in
seconds, so the unit conversion is absorbed into the parameter.
JS objects used as string-keyed maps are modelled as association
lists in insertion order.
-/

namespace Littlesnow

/-! ### Association-list primitives (JS `Map` / plain-object semantics)

`alookup` is `map[k]` / `Map.get`; `setEntry` is `map[k] = v` /
`Map.set` (overwrite in place, else append). -/

def alookup {α : Type} (k : String) : List (String × α) → Option α
  | [] => none
  | e :: rest => if e.1 = k then some e.2 else alookup k rest

def setEntry {α : Type} (k : String) (v : α) : List (String × α) → List (String × α)
  | [] => [(k, v)]
  | e :: rest => if e.1 = k then (k, v) :: rest else e :: setEntry k v rest

/-! ### ConnectionManager: `websocket-service.js` -/

/-- `const maxReconnectAttempts = 5` (websocket-service.js line 4). -/
def maxReconnectAttempts : Nat := 5

/-- Delay scheduled for the k-th consecutive reconnection attempt:
`Math.min(3000 * reconnectAttempts, 30000)` (line 46), computed after
the counter has been incremented, in milliseconds. -/
def reconnectDelay (attempt : Nat) : Nat := min (3000 * attempt) 30000

/-- The mutable closure state of `createWebSocketService` that the
lifecycle callbacks touch: whether the socket is open and the retry
counter. -/
structure WsService where
  wsOpen : Bool := false
  reconnectAttempts : Nat := 0
deriving DecidableEq, Repr

/-- `ws.onopen` (lines 19–28): the socket is open and the retry counter
is reset to 0.  (The `connected` emit and the delayed initial-data
request do not touch this state.) -/
def wsOnopen (s : WsService) : WsService :=
  { s with wsOpen := true, reconnectAttempts := 0 }

/-- `ws.onclose` (lines 39–53): emit `disconnected`, then, if the retry
budget remains, increment the counter and schedule a reconnect after
`reconnectDelay` of the new counter; otherwise schedule nothing.
Returns the new state together with the scheduled delay, if any. -/
def wsOnclose (s : WsService) : WsService × Option Nat :=
  let s1 : WsService := { s with wsOpen := false }
  if s1.reconnectAttempts < maxReconnectAttempts then
    let attempts := s1.reconnectAttempts + 1
    ({ s1 with reconnectAttempts := attempts }, some (reconnectDelay attempts))
  else
    (s1, none)

/-- Identity of a registered callback (JS compares handlers by function
reference in `indexOf`; reference identity is modelled as a `Nat` id). -/
abbrev Callback := Nat

/-- `callbacks.indexOf(callback)` (line 91): index of the first
occurrence, `none` for JS `-1`. -/
def indexOfFrom (c : Callback) : List Callback → Option Nat
  | [] => none
  | x :: xs => if x = c then some 0 else (indexOfFrom c xs).map (· + 1)

/-- `on(event, callback)` (lines 81–86): create the entry on first use,
then push the callback. -/
def wsOn (event : String) (c : Callback) (l : List (String × List Callback)) :
    List (String × List Callback) :=
  setEntry event ((alookup event l).getD [] ++ [c]) l

/-- `off(event, callback)` (lines 88–96): if the event has an entry and
the callback occurs in it, `splice` out the first occurrence; otherwise
change nothing. -/
def wsOff (event : String) (c : Callback) (l : List (String × List Callback)) :
    List (String × List Callback) :=
  match alookup event l with
  | none => l
  | some cbs =>
    match indexOfFrom c cbs with
    | none => l
    | some i => setEntry event (cbs.eraseIdx i) l

/-- Number of times `emit(event, _)` invokes the callback `c`: the
`forEach` over the registered list calls every element in order, so a
callback registered n times runs n times. -/
def emitCount (event : String) (c : Callback) (l : List (String × List Callback)) : Nat :=
  ((alookup event l).getD []).count c

/-- The per-iteration `try { callback(data) } catch (error) { log }` of
`emit` (lines 100–106): a raised error is caught and logged, never
propagated to the loop. -/
def tryCatchLog {E A : Type} : Except E A → Option E
  | .ok _ => none
  | .error e => some e

/-- The `forEach` loop of `emit` (lines 98–108) over possibly-throwing
callbacks: each callback is applied to the same event payload inside
its own `try`/`catch`, and the loop records the caught error (if any)
of every iteration. -/
def emitLoop {α E A : Type} (d : α) : List (α → Except E A) → List (Option E)
  | [] => []
  | cb :: rest => tryCatchLog (cb d) :: emitLoop d rest

/-- `ws.onmessage` (lines 30–37): `JSON.parse` the payload and emit a
`message` event; a parse failure is caught and only logged.  The host
`JSON.parse` is modelled by its result: `none` when it throws. -/
def onmessageEvents {Msg : Type} (parse : String → Option Msg) (raw : String) : List Msg :=
  match parse raw with
  | some d => [d]
  | none => []

/-! ### MetricsAggregator / PresentationState: the Vue dashboard
component `src/unnamed/part_003` -/

/-- One chart data point `{x: elapsedSeconds, y: value}`. -/
structure Point where
  x : ℚ
  y : ℚ
deriving DecidableEq, Repr

/-- The metric fields of one adapter in an inbound snapshot `summary`
that the core reads.  A field absent from the wire object is `none`. -/
structure AdapterMetrics where
  avg_latency_ms : Option ℚ := none
  success_rate : Option ℚ := none
  is_connected : Option Bool := none
deriving DecidableEq, Repr

/-- `this.adapters[name]`: the merged per-adapter record. -/
structure AdapterRec where
  avg_latency_ms : Option ℚ := none
  success_rate : Option ℚ := none
  is_connected : Option Bool := none
  lastUpdate : Option ℚ := none
deriving DecidableEq, Repr

/-- `{...this.adapters[adapter], ...metrics, lastUpdate}` (part_003
lines 265–269): fields present in the snapshot override, the rest
survive, `lastUpdate` is stamped with the current instant. -/
def mergeAdapterRec (old : AdapterRec) (m : AdapterMetrics) (now : ℚ) : AdapterRec :=
  { avg_latency_ms := m.avg_latency_ms.orElse fun _ => old.avg_latency_ms
    success_rate := m.success_rate.orElse fun _ => old.success_rate
    is_connected := m.is_connected.orElse fun _ => old.is_connected
    lastUpdate := some now }

/-- A snapshot: adapter-id → metrics, in wire order. -/
abbrev Summary := List (String × AdapterMetrics)

/-- The component state of the dashboard (`data()` of part_003,
lines 111–133) restricted to the fields the core logic mutates. -/
structure DashState where
  connected : Bool := false
  testRunning : Bool := true
  adapters : List (String × AdapterRec) := []
  latencyData : List (String × List Point) := []
  successData : List (String × List Point) := []
  startTime : ℚ := 0
  chartStartTime : Option ℚ := none
  totalDataPoints : Nat := 0
  lastUpdate : Option ℚ := none
deriving DecidableEq, Repr

/-- Fresh component state; `startTime` is `Date.now()` at creation. -/
def initDash (created : ℚ) : DashState := { startTime := created }

/-- `const maxPoints = 100` (part_003 line 313). -/
def maxPoints : Nat := 100

/-- `buffer.push(point)` followed by
`if (buffer.length > maxPoints) buffer.shift()` (lines 309–319). -/
def capPush (buf : List Point) (p : Point) : List Point :=
  if maxPoints < (buf ++ [p]).length then (buf ++ [p]).drop 1 else buf ++ [p]

/-- The series buffer of one adapter; a missing key reads as the empty
buffer (the code initialises `[]` on first touch). -/
def bufOf (data : List (String × List Point)) (adapter : String) : List Point :=
  (alookup adapter data).getD []

/-- `elapsedSeconds = now - this.chartStartTime` where an unset
`chartStartTime` has just been initialised to `now`
(lines 277–284). -/
def elapsedAt (now : ℚ) (s : DashState) : ℚ :=
  now - s.chartStartTime.getD now

/-- `{x: elapsedSeconds, y: metrics.avg_latency_ms || 0}`
(lines 299–302). -/
def latPoint (m : AdapterMetrics) (now : ℚ) (s : DashState) : Point :=
  ⟨elapsedAt now s, m.avg_latency_ms.getD 0⟩

/-- `{x: elapsedSeconds, y: (metrics.success_rate || 0) * 100}`
(lines 304–307). -/
def succPoint (m : AdapterMetrics) (now : ℚ) (s : DashState) : Point :=
  ⟨elapsedAt now s, m.success_rate.getD 0 * 100⟩

/-- `updateChartData(adapter, metrics)` (part_003 lines 276–327):
establish `chartStartTime` on first use, append one latency point and
one success point for the adapter, then cap each buffer at
`maxPoints` by shifting out the oldest point. -/
def updateChartData (adapter : String) (m : AdapterMetrics) (now : ℚ) (s : DashState) :
    DashState :=
  { s with
    chartStartTime := some (s.chartStartTime.getD now)
    latencyData :=
      setEntry adapter (capPush (bufOf s.latencyData adapter) (latPoint m now s)) s.latencyData
    successData :=
      setEntry adapter (capPush (bufOf s.successData adapter) (succPoint m now s)) s.successData }

/-- `updateAdapters(summary)` (part_003 lines 247–274): for each
adapter of the snapshot, merge its record and append its chart
points. -/
def updateAdapters (summary : Summary) (now : ℚ) (s : DashState) : DashState :=
  summary.foldl
    (fun st e =>
      let old := (alookup e.1 st.adapters).getD {}
      let st1 : DashState := { st with adapters := setEntry e.1 (mergeAdapterRec old e.2 now) st.adapters }
      updateChartData e.1 e.2 now st1)
    s

/-- Inbound wire messages, discriminated by `type`
(`handleWebSocketMessage`, part_003 lines 203–245); `other` is any
unrecognised `type` (the `switch` has no default). -/
inductive WireMsg where
  | metrics_update (summary : Option Summary)
  | status (test_running : Option Bool) (summary : Option Summary)
  | initial_data (start_time : Option ℚ) (summary : Option Summary)
  | test_complete
  | summary (summary : Option Summary)
  | other
deriving DecidableEq, Repr

/-- `if (data.start_time) this.startTime = new Date(data.start_time).getTime()`
(part_003 lines 225–227): JS truthiness skips the assignment when the
field is absent or its numeric value is 0. -/
def applyStartTime (st : Option ℚ) (s : DashState) : DashState :=
  match st with
  | some t => if t = 0 then s else { s with startTime := t }
  | none => s

/-- `handleWebSocketMessage(data)` (part_003 lines 203–245). -/
def handleWebSocketMessage (msg : WireMsg) (now : ℚ) (s : DashState) : DashState :=
  let s0 : DashState :=
    { s with totalDataPoints := s.totalDataPoints + 1, lastUpdate := some now }
  match msg with
  | .metrics_update sum => updateAdapters (sum.getD []) now s0
  | .status tr sum =>
      let s1 : DashState :=
        { s0 with testRunning := if tr = some false then false else true }
      match sum with
      | some su => updateAdapters su now s1
      | none => s1
  | .initial_data st sum =>
      let s1 : DashState := applyStartTime st s0
      match sum with
      | some su => updateAdapters su now s1
      | none => s1
  | .test_complete => { s0 with testRunning := false }
  | .summary sum =>
      match sum with
      | some su => updateAdapters su now s0
      | none => s0
  | .other => s0

/-- `markAdaptersOffline()` (part_003 lines 329–335): clear
`is_connected` on every known adapter record. -/
def markAdaptersOffline (s : DashState) : DashState :=
  { s with adapters := s.adapters.map fun e => (e.1, { e.2 with is_connected := some false }) }

/-- The `disconnected` subscription of `mounted()` (part_003
lines 350–355): clear the connection and run-state flags and mark every
adapter offline, in the same event-handler turn. -/
def onDisconnected (s : DashState) : DashState :=
  markAdaptersOffline { s with connected := false, testRunning := false }

/-- A run of the dashboard: fold `handleWebSocketMessage` over an
arbitrary arrival-ordered list of (message, instant) pairs. -/
def runMessages (msgs : List (WireMsg × ℚ)) (s : DashState) : DashState :=
  msgs.foldl (fun st p => handleWebSocketMessage p.1 p.2 st) s

/-- The whole-client reaction to one raw transport frame: decode in
`ws.onmessage` (with its per-message `try`/`catch`) and dispatch any
decoded `message` event to the dashboard handler registered in
`mounted()`.  The service closure state is untouched by this path. -/
def onmessageStep (parse : String → Option WireMsg) (raw : String) (now : ℚ)
    (sv : WsService) (dash : DashState) : WsService × DashState :=
  (sv, (onmessageEvents parse raw).foldl (fun d msg => handleWebSocketMessage msg now d) dash)

/-! ### RenderScheduler: `LatencyChart.js` (the success chart is the
same logic) -/

/-- The `chartData` prop: adapter-id → series, in insertion order. -/
abbrev ChartBundle := List (String × List Point)

/-- `checkDataHasContent` (LatencyChart.js lines 89–95): some adapter
has a nonempty series. -/
def checkDataHasContent (data : ChartBundle) : Bool :=
  data.any fun e => !e.2.isEmpty

/-- `calculateDataHash` (LatencyChart.js lines 97–106):
`JSON.stringify` of `{k: v.slice(-5)}` over the nonempty series.  The
serialization is injective on this domain, so the string is modelled by
the bundle of last-`min(5,length)` tails it serializes, compared
structurally where the source compares strings. -/
def calculateDataHash (data : ChartBundle) : ChartBundle :=
  data.filterMap fun e =>
    if e.2.length > 0 then some (e.1, e.2.drop (e.2.length - 5)) else none

/-- The watcher-relevant component state of `LatencyChart`
(`data()`, lines 36–45).  The initial `lastDataHash` is `''`, which no
computed hash of contentful data equals; it is modelled by `[]`. -/
structure ChartComp where
  mountedReady : Bool := false
  showPlaceholder : Bool := true
  lastDataHash : ChartBundle := []
deriving DecidableEq, Repr

/-- The `chartData` watcher handler (LatencyChart.js lines 47–85):
skip while unmounted; show the placeholder when there is no content;
otherwise rebuild the chart (destroy-then-recreate via `initChart`)
exactly when the data hash differs from the stored one.  The returned
`Bool` is whether a rebuild was scheduled. -/
def watchChartData (c : ChartComp) (newData : ChartBundle) : ChartComp × Bool :=
  if !c.mountedReady then (c, false)
  else if !checkDataHasContent newData then ({ c with showPlaceholder := true }, false)
  else
    let newHash := calculateDataHash newData
    if newHash = c.lastDataHash then (c, false)
    else ({ c with lastDataHash := newHash, showPlaceholder := false }, true)

/-! ### PresentationState: `getMetricClass` of the adapter card
`src/unnamed/part_002` (lines 274–336) -/

/-- One entry of a conditional color ladder, e.g.
`{condition: ">", value: 0, class: "text-warning"}`.  The `class` key
is spelled `cls` (`class` is reserved in Lean). -/
structure ColorCondition where
  condition : String
  value : ℚ
  cls : String
deriving DecidableEq, Repr

/-- One entry of a threshold color ladder, e.g.
`{min: 0.99, class: "badge bg-success"}`. -/
structure ColorThreshold where
  min : ℚ
  cls : String
deriving DecidableEq, Repr

/-- A declarative color configuration.  `type` selects the category;
the data fields of the other categories may be present but unused
(JS objects carry whatever keys they carry); absent `value` reads as
the empty class. -/
structure ColorConfig where
  type : String
  value : String := ""
  conditions : List ColorCondition := []
  thresholds : List ColorThreshold := []
deriving DecidableEq, Repr

/-- Legacy numeric `{good, warning}` thresholds of a metric config. -/
structure Thresholds where
  good : ℚ
  warning : ℚ
deriving DecidableEq, Repr

/-- The slice of a per-metric display config that `getMetricClass`
reads. -/
structure MetricConfig where
  color : Option ColorConfig := none
  thresholds : Option Thresholds := none
deriving DecidableEq, Repr

/-- The comparator `switch` inside the conditional ladder
(part_002 lines 287–306); an unknown comparator never matches. -/
def meetsCondition (value : ℚ) (c : ColorCondition) : Bool :=
  if c.condition = ">" then decide (value > c.value)
  else if c.condition = ">=" then decide (value ≥ c.value)
  else if c.condition = "<" then decide (value < c.value)
  else if c.condition = "<=" then decide (value ≤ c.value)
  else if c.condition = "=" ∨ c.condition = "===" then decide (value = c.value)
  else false

/-- The conditional ladder: first matching comparator wins
(part_002 lines 283–312). -/
def condClass (value : ℚ) : List ColorCondition → Option String
  | [] => none
  | c :: rest => if meetsCondition value c then some c.cls else condClass value rest

/-- The threshold ladder: first entry whose `min` the value reaches
wins (part_002 lines 320–326). -/
def thresholdClass (value : ℚ) : List ColorThreshold → Option String
  | [] => none
  | t :: rest => if value ≥ t.min then some t.cls else thresholdClass value rest

/-- The legacy `{good, warning}` fallback (part_002 lines 329–333),
empty when the metric declares no legacy thresholds. -/
def legacyThresholdClass (value : ℚ) : Option Thresholds → String
  | some t =>
      if value ≤ t.good then "text-success"
      else if value ≤ t.warning then "text-warning"
      else "text-danger"
  | none => ""

/-- `getMetricClass(metricKey)` (part_002 lines 274–336), in the
source's own evaluation order: missing config or missing color gives
the empty class; then the conditional block, the static block, the
threshold block and the legacy fallback run in program order, each
gated on `colorConfig.type`, the first produced class returned.  The
metric value is `adapterData[metricKey] || 0`. -/
def getMetricClass (metricValue : Option ℚ) (metricConfig : Option MetricConfig) : String :=
  let value := metricValue.getD 0
  match metricConfig with
  | none => ""
  | some mc =>
    match mc.color with
    | none => ""
    | some cc =>
      (if cc.type = "conditional" then condClass value cc.conditions else none).getD
        (if cc.type = "static" then cc.value
         else
          (if cc.type = "threshold" then thresholdClass value cc.thresholds else none).getD
            (legacyThresholdClass value mc.thresholds))

/-- Modelled from the spec: the color classification evaluated in the
spec's stated strict priority order — static color, then the
conditional ladder (first matching comparator wins), then the
threshold ladder (first matching minimum wins), then the numeric
default fallback — higher categories consulted first.  Written for
comparison against the source-order `getMetricClass`. -/
def specMetricClass (metricValue : Option ℚ) (metricConfig : Option MetricConfig) : String :=
  let value := metricValue.getD 0
  match metricConfig with
  | none => ""
  | some mc =>
    match mc.color with
    | none => ""
    | some cc =>
      if cc.type = "static" then cc.value
      else
        (if cc.type = "conditional" then condClass value cc.conditions else none).getD
          ((if cc.type = "threshold" then thresholdClass value cc.thresholds else none).getD
            (legacyThresholdClass value mc.thresholds))

/-! ### Concrete sample data used by scenario theorems -/

/-- The snapshot of the spec's scenario:
`{binance: {avg_latency_ms: 10, success_rate: 1.0, is_connected: true}}`. -/
def binanceSummary : Summary :=
  [("binance", { avg_latency_ms := some 10, success_rate := some 1, is_connected := some true })]

/-- The dashboard state after merging
`{type: "initial_data", start_time: T0, summary: binanceSummary}` into
fresh state at wall-clock instant `now`. -/
def afterInitialData (T0 now : ℚ) : DashState :=
  handleWebSocketMessage (.initial_data (some T0) (some binanceSummary)) now (initDash 0)

/-- A dashboard state holding a full 100-point latency buffer and a
full 100-point success buffer for `binance`. -/
def fullBufferState : DashState :=
  { latencyData := [("binance", (List.range 100).map fun i : ℕ => Point.mk i 0)]
    successData := [("binance", (List.range 100).map fun i : ℕ => Point.mk i 0)] }

/-- Fresh state after merging the scenario snapshot once, at instant 1. -/
def remergeState1 : DashState := updateAdapters binanceSummary 1 (initDash 0)

/-- `remergeState1` after re-merging the identical snapshot, at
instant 2. -/
def remergeState2 : DashState := updateAdapters binanceSummary 2 remergeState1

/-- Fresh state after `initial_data` with `start_time = 3` merged at
wall-clock instant 5: the display start time and the chart epoch
disagree. -/
def c5State1 : DashState := afterInitialData 3 5

/-- `c5State1` after a `summary` snapshot arriving at instant 7. -/
def c5State2 : DashState :=
  handleWebSocketMessage (.summary (some binanceSummary)) 7 c5State1

/-- Both series buffers of every adapter hold at most 100 points. -/
def BufBound (s : DashState) : Prop :=
  ∀ a : String,
    (bufOf s.latencyData a).length ≤ 100 ∧ (bufOf s.successData a).length ≤ 100

/-- For every adapter the latency and success buffers have the same
length. -/
def BufLockstep (s : DashState) : Prop :=
  ∀ a : String, (bufOf s.latencyData a).length = (bufOf s.successData a).length

/-! ## Helper lemmas -/

theorem alookup_setEntry_self {α : Type} (k : String) (v : α) (l : List (String × α)) :
    alookup k (setEntry k v l) = some v := by
  induction l with
  | nil => simp [setEntry, alookup]
  | cons e rest ih =>
    by_cases h : e.1 = k
    · simp [setEntry, h, alookup]
    · simp [setEntry, h, alookup, ih]

theorem alookup_setEntry_ne {α : Type} (k k' : String) (v : α) (l : List (String × α))
    (h : k' ≠ k) : alookup k' (setEntry k v l) = alookup k' l := by
  have h' : ¬(k = k') := fun hh => h hh.symm
  induction l with
  | nil => simp [setEntry, alookup, h']
  | cons e rest ih =>
    by_cases he : e.1 = k
    · simp [setEntry, he, alookup, h']
    · simp [setEntry, he, alookup, ih]

theorem indexOfFrom_eq_none {c : Callback} {cs : List Callback} (h : c ∉ cs) :
    indexOfFrom c cs = none := by
  induction cs with
  | nil => rfl
  | cons x xs ih =>
    have hx : ¬x = c := fun hh => h (by simp [hh])
    have hxs : c ∉ xs := fun hh => h (List.mem_cons_of_mem _ hh)
    simp [indexOfFrom, hx, ih hxs]

theorem indexOfFrom_isSome {c : Callback} {cs : List Callback} (h : c ∈ cs) :
    ∃ i, indexOfFrom c cs = some i := by
  induction cs with
  | nil => simp at h
  | cons x xs ih =>
    by_cases hx : x = c
    · exact ⟨0, by simp [indexOfFrom, hx]⟩
    · have hxs : c ∈ xs := by
        rcases List.mem_cons.mp h with h' | h'
        · exact absurd h'.symm hx
        · exact h'
      obtain ⟨j, hj⟩ := ih hxs
      exact ⟨j + 1, by simp [indexOfFrom, hx, hj]⟩

theorem eraseIdx_indexOfFrom (c : Callback) (cs : List Callback) (i : Nat)
    (h : indexOfFrom c cs = some i) : cs.eraseIdx i = cs.erase c := by
  induction cs generalizing i with
  | nil => simp [indexOfFrom] at h
  | cons x xs ih =>
    by_cases hx : x = c
    · subst hx
      simp [indexOfFrom] at h
      subst h
      simp [List.eraseIdx]
    · simp [indexOfFrom, hx] at h
      obtain ⟨j, hj, rfl⟩ := h
      simp [List.eraseIdx, List.erase_cons, hx, ih j hj]

theorem capPush_length (buf : List Point) (p : Point) :
    (capPush buf p).length
      = if maxPoints < buf.length + 1 then buf.length else buf.length + 1 := by
  simp only [capPush, List.length_append, List.length_singleton, List.length_drop]
  split <;> simp

theorem capPush_le (buf : List Point) (p : Point) (h : buf.length ≤ 100) :
    (capPush buf p).length ≤ 100 := by
  rw [capPush_length]
  simp only [maxPoints]
  split <;> omega

theorem capPush_length_eq (b1 b2 : List Point) (p q : Point) (h : b1.length = b2.length) :
    (capPush b1 p).length = (capPush b2 q).length := by
  rw [capPush_length, capPush_length, h]

theorem capPush_full (buf : List Point) (p : Point) (h : buf.length = 100) :
    capPush buf p = buf.drop 1 ++ [p] := by
  have hlt : maxPoints < (buf ++ [p]).length := by
    simp [maxPoints, h]
  rw [capPush, if_pos hlt]
  cases buf with
  | nil => simp at h
  | cons a t => simp

theorem capPush_small (buf : List Point) (p : Point) (h : buf.length < 100) :
    capPush buf p = buf ++ [p] := by
  rw [capPush, if_neg]
  simp only [maxPoints, List.length_append, List.length_singleton]
  omega

theorem foldl_preserve {σ α : Type} (P : σ → Prop) (f : σ → α → σ)
    (hf : ∀ s x, P s → P (f s x)) (xs : List α) :
    ∀ s : σ, P s → P (xs.foldl f s) := by
  induction xs with
  | nil => intro s hs; exact hs
  | cons x t ih => intro s hs; exact ih (f s x) (hf s x hs)

theorem emitLoop_length {α E A : Type} (d : α) (l : List (α → Except E A)) :
    (emitLoop d l).length = l.length := by
  induction l with
  | nil => rfl
  | cons cb rest ih => simp [emitLoop, ih]

theorem wsOff_emitCount (l : List (String × List Callback)) (event : String) (c : Callback)
    (h : c ∈ (alookup event l).getD []) :
    emitCount event c (wsOff event c l) = emitCount event c l - 1 := by
  cases halk : alookup event l with
  | none => rw [halk] at h; simp at h
  | some cbs =>
    rw [halk] at h
    simp only [Option.getD_some] at h
    obtain ⟨i, hi⟩ := indexOfFrom_isSome h
    simp only [wsOff, emitCount, halk, hi, alookup_setEntry_self, Option.getD_some]
    rw [eraseIdx_indexOfFrom c cbs i hi, List.count_erase_self]

theorem wsOff_not_mem (l : List (String × List Callback)) (event : String) (c : Callback)
    (h : c ∉ (alookup event l).getD []) : wsOff event c l = l := by
  cases halk : alookup event l with
  | none => simp [wsOff, halk]
  | some cbs =>
    rw [halk] at h
    simp only [Option.getD_some] at h
    simp [wsOff, halk, indexOfFrom_eq_none h]

/-! ## Claim theorems: connection manager -/

/-- C3: for every reconnection attempt k within the retry budget of 5,
the scheduled delay `reconnectDelay k` is non-decreasing in k and
bounded by the 30000 ms cap; a successful open (`ws.onopen`) resets the
attempt counter, so the next close schedules the base delay 3000 ms;
once the budget is exhausted, `ws.onclose` schedules no reconnect. -/
theorem c3_reconnect_backoff_monotone_capped_reset :
    (∀ j k : Nat, j ≤ k → reconnectDelay j ≤ reconnectDelay k)
  ∧ (∀ k : Nat, reconnectDelay k ≤ 30000)
  ∧ (∀ s : WsService,
      (wsOnclose (wsOnopen s)).2 = some (reconnectDelay 1) ∧ reconnectDelay 1 = 3000)
  ∧ (∀ s : WsService,
      s.reconnectAttempts = maxReconnectAttempts → (wsOnclose s).2 = none) := by
  refine ⟨?_, ?_, ?_, ?_⟩
  · intro j k h
    simp only [reconnectDelay]
    omega
  · intro k
    simp only [reconnectDelay]
    omega
  · intro s
    exact ⟨by simp [wsOnopen, wsOnclose, maxReconnectAttempts], by decide⟩
  · intro s h
    simp [wsOnclose, maxReconnectAttempts, h]

theorem c3_reconnect_backoff_monotone_capped_reset_witness :
    ((2 : Nat) ≤ 3 ∧ reconnectDelay 2 ≤ reconnectDelay 3)
  ∧ ((WsService.mk false 5).reconnectAttempts = maxReconnectAttempts
      ∧ (wsOnclose (WsService.mk false 5)).2 = none) :=
  ⟨⟨by decide, c3_reconnect_backoff_monotone_capped_reset.1 2 3 (by decide)⟩,
   ⟨rfl, c3_reconnect_backoff_monotone_capped_reset.2.2.2 (WsService.mk false 5) rfl⟩⟩

/-- C6: an inbound frame whose payload fails to decode is dropped:
no `message` event is emitted, the service state and the dashboard
state are unchanged, and the transport is not closed. -/
theorem c6_malformed_payload_dropped :
    ∀ (parse : String → Option WireMsg) (raw : String) (now : ℚ)
      (sv : WsService) (dash : DashState),
      parse raw = none →
        onmessageEvents parse raw = ([] : List WireMsg)
      ∧ onmessageStep parse raw now sv dash = (sv, dash) := by
  intro parse raw now sv dash h
  refine ⟨?_, ?_⟩
  · simp [onmessageEvents, h]
  · simp [onmessageStep, onmessageEvents, h]

theorem c6_malformed_payload_dropped_witness :
    ((fun _ : String => (none : Option WireMsg)) "not json" = none)
  ∧ onmessageStep (fun _ => none) "not json" 0 {} (initDash 0) = ({}, initDash 0) :=
  ⟨rfl, (c6_malformed_payload_dropped (fun _ => none) "not json" 0 {} (initDash 0) rfl).2⟩

/-- C8: the `emit` loop wraps each callback in its own try/catch, so a
callback that throws does not prevent the remaining callbacks from
being invoked with the same event payload: the iteration record of the
loop splits around the failing callback, with every later callback
still applied to `d`, and its length is the full handler count. -/
theorem c8_emit_isolates_handler_failure :
    ∀ {α E A : Type} (pre post : List (α → Except E A)) (cb : α → Except E A)
      (d : α) (e : E),
      cb d = .error e →
        emitLoop d (pre ++ cb :: post) = emitLoop d pre ++ some e :: emitLoop d post
      ∧ (emitLoop d (pre ++ cb :: post)).length = pre.length + 1 + post.length := by
  intro α E A pre post cb d e h
  constructor
  · induction pre with
    | nil => simp [emitLoop, tryCatchLog, h]
    | cons c t ih => simp [emitLoop, ih]
  · rw [emitLoop_length]
    simp [List.length_append]
    omega

theorem c8_emit_isolates_handler_failure_witness :
    ((fun _ : Unit => (Except.error "boom" : Except String Nat)) () = Except.error "boom")
  ∧ emitLoop () ([fun _ : Unit => (Except.ok 1 : Except String Nat)]
        ++ (fun _ : Unit => (Except.error "boom" : Except String Nat))
          :: [fun _ : Unit => (Except.ok 2 : Except String Nat)])
      = emitLoop () [fun _ : Unit => (Except.ok 1 : Except String Nat)]
        ++ some "boom" :: emitLoop () [fun _ : Unit => (Except.ok 2 : Except String Nat)] :=
  ⟨rfl,
   (c8_emit_isolates_handler_failure
      [fun _ : Unit => (Except.ok 1 : Except String Nat)]
      [fun _ : Unit => (Except.ok 2 : Except String Nat)]
      (fun _ : Unit => (Except.error "boom" : Except String Nat)) () "boom" rfl).1⟩

/-- C10: `off(event, handler)` removes at most one registration: a
handler registered n ≥ 2 times is still invoked n − 1 ≥ 1 times by a
subsequent `emit` of that event, and `off` for an unregistered handler
or an unknown event changes nothing. -/
theorem c10_off_removes_at_most_one :
    ∀ (l : List (String × List Callback)) (event : String) (c : Callback),
      (c ∈ (alookup event l).getD [] →
        emitCount event c (wsOff event c l) = emitCount event c l - 1)
    ∧ (c ∉ (alookup event l).getD [] → wsOff event c l = l)
    ∧ (∀ n : Nat, 2 ≤ n → emitCount event c l = n →
        emitCount event c (wsOff event c l) = n - 1
        ∧ 1 ≤ emitCount event c (wsOff event c l)) := by
  intro l event c
  refine ⟨fun h => wsOff_emitCount l event c h, fun h => wsOff_not_mem l event c h, ?_⟩
  intro n h2 hn
  have hpos : 0 < ((alookup event l).getD []).count c := by
    have : 0 < emitCount event c l := by omega
    simpa [emitCount] using this
  have hmem : c ∈ (alookup event l).getD [] := List.count_pos_iff.mp hpos
  have hoff := wsOff_emitCount l event c hmem
  rw [hoff, hn]
  omega

theorem c10_off_removes_at_most_one_witness :
    ((7 : Callback) ∈ (alookup "message" [("message", [7, 7])]).getD []
      ∧ emitCount "message" 7 (wsOff "message" 7 [("message", [7, 7])])
          = emitCount "message" 7 [("message", [7, 7])] - 1)
  ∧ ((9 : Callback) ∉ (alookup "message" [("message", [7, 7])]).getD []
      ∧ wsOff "message" 9 [("message", [7, 7])] = [("message", [7, 7])]) :=
  ⟨⟨by decide,
    (c10_off_removes_at_most_one [("message", [7, 7])] "message" 7).1 (by decide)⟩,
   ⟨by decide,
    (c10_off_removes_at_most_one [("message", [7, 7])] "message" 9).2.1 (by decide)⟩⟩

/-! ## Claim theorems: aggregation buffers -/

theorem bufOf_setEntry (data : List (String × List Point)) (adapter a : String)
    (v : List Point) :
    bufOf (setEntry adapter v data) a = if a = adapter then v else bufOf data a := by
  by_cases h : a = adapter
  · subst h
    simp [bufOf, alookup_setEntry_self]
  · simp [bufOf, alookup_setEntry_ne _ _ _ _ h, h]

theorem updateChartData_bufOf_lat (adapter : String) (m : AdapterMetrics) (now : ℚ)
    (s : DashState) (a : String) :
    bufOf (updateChartData adapter m now s).latencyData a
      = if a = adapter then capPush (bufOf s.latencyData adapter) (latPoint m now s)
        else bufOf s.latencyData a := by
  simp [updateChartData, bufOf_setEntry]

theorem updateChartData_bufOf_suc (adapter : String) (m : AdapterMetrics) (now : ℚ)
    (s : DashState) (a : String) :
    bufOf (updateChartData adapter m now s).successData a
      = if a = adapter then capPush (bufOf s.successData adapter) (succPoint m now s)
        else bufOf s.successData a := by
  simp [updateChartData, bufOf_setEntry]

theorem updateChartData_bufBound {s : DashState} (h : BufBound s)
    (adapter : String) (m : AdapterMetrics) (now : ℚ) :
    BufBound (updateChartData adapter m now s) := by
  intro a
  constructor
  · rw [updateChartData_bufOf_lat]
    split
    · exact capPush_le _ _ (h adapter).1
    · exact (h a).1
  · rw [updateChartData_bufOf_suc]
    split
    · exact capPush_le _ _ (h adapter).2
    · exact (h a).2

theorem updateAdapters_bufBound (sum : Summary) (now : ℚ) {s : DashState}
    (h : BufBound s) : BufBound (updateAdapters sum now s) := by
  unfold updateAdapters
  refine foldl_preserve BufBound _ ?_ sum s h
  intro st e hst
  exact updateChartData_bufBound (fun a => hst a) e.1 e.2 now

theorem applyStartTime_latencyData (st : Option ℚ) (s : DashState) :
    (applyStartTime st s).latencyData = s.latencyData := by
  cases st with
  | none => rfl
  | some t =>
    simp only [applyStartTime]
    split <;> rfl

theorem applyStartTime_successData (st : Option ℚ) (s : DashState) :
    (applyStartTime st s).successData = s.successData := by
  cases st with
  | none => rfl
  | some t =>
    simp only [applyStartTime]
    split <;> rfl

theorem bufBound_applyStartTime {s : DashState} (h : BufBound s) (st : Option ℚ) :
    BufBound (applyStartTime st s) := by
  intro a
  constructor
  · rw [applyStartTime_latencyData]
    exact (h a).1
  · rw [applyStartTime_successData]
    exact (h a).2

theorem handleWebSocketMessage_bufBound (msg : WireMsg) (now : ℚ) {s : DashState}
    (h : BufBound s) : BufBound (handleWebSocketMessage msg now s) := by
  cases msg with
  | metrics_update sum =>
    exact updateAdapters_bufBound _ _ (fun a => h a)
  | status tr sum =>
    cases sum with
    | some su => exact updateAdapters_bufBound _ _ (fun a => h a)
    | none => exact fun a => h a
  | initial_data st sum =>
    have hb : BufBound (applyStartTime st
        { s with totalDataPoints := s.totalDataPoints + 1, lastUpdate := some now }) := by
      apply bufBound_applyStartTime
      intro a
      exact h a
    cases sum with
    | some su => exact updateAdapters_bufBound _ _ hb
    | none => exact hb
  | test_complete => exact fun a => h a
  | summary sum =>
    cases sum with
    | some su => exact updateAdapters_bufBound _ _ (fun a => h a)
    | none => exact fun a => h a
  | other => exact fun a => h a

theorem runMessages_bufBound (msgs : List (WireMsg × ℚ)) {s : DashState}
    (h : BufBound s) : BufBound (runMessages msgs s) := by
  unfold runMessages
  refine foldl_preserve BufBound _ ?_ msgs s h
  intro st p hst
  exact handleWebSocketMessage_bufBound p.1 p.2 hst

theorem initDash_bufBound (created : ℚ) : BufBound (initDash created) := by
  intro a
  constructor <;> simp [initDash, bufOf, alookup]

theorem updateChartData_lockstep {s : DashState} (h : BufLockstep s)
    (adapter : String) (m : AdapterMetrics) (now : ℚ) :
    BufLockstep (updateChartData adapter m now s) := by
  intro a
  rw [updateChartData_bufOf_lat, updateChartData_bufOf_suc]
  by_cases ha : a = adapter
  · simp only [ha, if_pos rfl]
    exact capPush_length_eq _ _ _ _ (h adapter)
  · simp only [if_neg ha]
    exact h a

theorem updateAdapters_lockstep (sum : Summary) (now : ℚ) {s : DashState}
    (h : BufLockstep s) : BufLockstep (updateAdapters sum now s) := by
  unfold updateAdapters
  refine foldl_preserve BufLockstep _ ?_ sum s h
  intro st e hst
  exact updateChartData_lockstep (fun a => hst a) e.1 e.2 now

theorem handleWebSocketMessage_lockstep (msg : WireMsg) (now : ℚ) {s : DashState}
    (h : BufLockstep s) : BufLockstep (handleWebSocketMessage msg now s) := by
  cases msg with
  | metrics_update sum =>
    exact updateAdapters_lockstep _ _ (fun a => h a)
  | status tr sum =>
    cases sum with
    | some su => exact updateAdapters_lockstep _ _ (fun a => h a)
    | none => exact fun a => h a
  | initial_data st sum =>
    have hst : BufLockstep (applyStartTime st
        { s with totalDataPoints := s.totalDataPoints + 1, lastUpdate := some now }) := by
      intro a
      rw [applyStartTime_latencyData, applyStartTime_successData]
      exact h a
    cases sum with
    | some su => exact updateAdapters_lockstep _ _ hst
    | none => exact hst
  | test_complete => exact fun a => h a
  | summary sum =>
    cases sum with
    | some su => exact updateAdapters_lockstep _ _ (fun a => h a)
    | none => exact fun a => h a
  | other => exact fun a => h a

/-- C1: after every sequence of inbound messages (hence every sequence
of snapshot merges) each per-adapter series buffer — latency and
success — holds at most 100 points, and appending to a full 100-point
buffer drops exactly the oldest point while the freshly built point
becomes the last element. -/
theorem c1_series_buffer_cap_and_fifo :
    (∀ (msgs : List (WireMsg × ℚ)) (created : ℚ) (a : String),
        (bufOf (runMessages msgs (initDash created)).latencyData a).length ≤ 100
      ∧ (bufOf (runMessages msgs (initDash created)).successData a).length ≤ 100)
  ∧ (∀ (s : DashState) (a : String) (m : AdapterMetrics) (now : ℚ),
      (bufOf s.latencyData a).length = 100 →
        bufOf (updateChartData a m now s).latencyData a
          = (bufOf s.latencyData a).drop 1 ++ [latPoint m now s])
  ∧ (∀ (s : DashState) (a : String) (m : AdapterMetrics) (now : ℚ),
      (bufOf s.successData a).length = 100 →
        bufOf (updateChartData a m now s).successData a
          = (bufOf s.successData a).drop 1 ++ [succPoint m now s]) := by
  refine ⟨?_, ?_, ?_⟩
  · intro msgs created a
    exact runMessages_bufBound msgs (initDash_bufBound created) a
  · intro s a m now h
    rw [updateChartData_bufOf_lat, if_pos rfl, capPush_full _ _ h]
  · intro s a m now h
    rw [updateChartData_bufOf_suc, if_pos rfl, capPush_full _ _ h]

theorem c1_series_buffer_cap_and_fifo_witness :
    (bufOf fullBufferState.latencyData "binance").length = 100
  ∧ bufOf (updateChartData "binance" {} 0 fullBufferState).latencyData "binance"
      = (bufOf fullBufferState.latencyData "binance").drop 1
          ++ [latPoint {} 0 fullBufferState] :=
  ⟨by simp [fullBufferState, bufOf, alookup],
   c1_series_buffer_cap_and_fifo.2.1 fullBufferState "binance" {} 0
     (by simp [fullBufferState, bufOf, alookup])⟩

/-- C9: after every sequence of inbound messages, for every adapter the
latency series and the success-rate series have the same length: each
merge appends one point to each and both are capped at 100 points, so
the buffers stay in lockstep. -/
theorem c9_latency_success_lockstep :
    ∀ (msgs : List (WireMsg × ℚ)) (created : ℚ) (a : String),
      (bufOf (runMessages msgs (initDash created)).latencyData a).length
        = (bufOf (runMessages msgs (initDash created)).successData a).length := by
  intro msgs created a
  have hinit : BufLockstep (initDash created) := by
    intro b
    simp [initDash, bufOf, alookup]
  have : BufLockstep (runMessages msgs (initDash created)) := by
    unfold runMessages
    refine foldl_preserve BufLockstep _ ?_ msgs _ hinit
    intro st p hst
    exact handleWebSocketMessage_lockstep p.1 p.2 hst
  exact this a

/-- C2: the `disconnected` transport event handler marks every adapter
offline in the same handler turn: after `onDisconnected`, every entry
of the adapters map has `is_connected = false`, regardless of its prior
value. -/
theorem c2_transport_close_clears_connectivity :
    ∀ (s : DashState) (e : String × AdapterRec),
      e ∈ (onDisconnected s).adapters → e.2.is_connected = some false := by
  intro s e he
  simp only [onDisconnected, markAdaptersOffline, List.mem_map] at he
  obtain ⟨x, _, rfl⟩ := he
  rfl

theorem c2_transport_close_clears_connectivity_witness :
    ("binance", ({ is_connected := some false } : AdapterRec))
       ∈ (onDisconnected
            { adapters := [("binance", { is_connected := some true })] }).adapters
  ∧ (("binance", ({ is_connected := some false } : AdapterRec)).2.is_connected
       = some false) :=
  ⟨by simp [onDisconnected, markAdaptersOffline],
   c2_transport_close_clears_connectivity
     { adapters := [("binance", { is_connected := some true })] }
     ("binance", { is_connected := some false })
     (by simp [onDisconnected, markAdaptersOffline])⟩

/-! ## Claim theorems: color classification -/

/-- C7: for every metric value and declarative color configuration the
source-order evaluator `getMetricClass` computes exactly the spec's
strict-priority evaluation — static color first, then the conditional
ladder (first matching comparator wins), then the threshold ladder
(first matching minimum wins), then the numeric default fallback —
so once a higher-priority category matches, lower categories are never
consulted. -/
theorem c7_metric_class_priority_order :
    ∀ (metricValue : Option ℚ) (metricConfig : Option MetricConfig),
      getMetricClass metricValue metricConfig = specMetricClass metricValue metricConfig := by
  intro v mc
  match mc with
  | none => rfl
  | some m =>
    match hc : m.color with
    | none => simp [getMetricClass, specMetricClass, hc]
    | some cc =>
      simp only [getMetricClass, specMetricClass, hc]
      by_cases h1 : cc.type = "static"
      · simp [h1]
      · by_cases h2 : cc.type = "conditional"
        · simp [h2]
        · by_cases h3 : cc.type = "threshold"
          · simp [h3]
          · simp [h1, h2, h3]

/-! ## Claim theorems: render fingerprint -/

theorem updateChartData_append (a : String) (m : AdapterMetrics) (now2 : ℚ)
    (s : DashState) (hlen : (bufOf s.latencyData a).length < 100) :
    bufOf (updateChartData a m now2 s).latencyData a
      = bufOf s.latencyData a
          ++ [⟨now2 - s.chartStartTime.getD now2, m.avg_latency_ms.getD 0⟩] := by
  rw [updateChartData_bufOf_lat, if_pos rfl, capPush_small _ _ hlen]
  rfl

theorem remergeState1_eq :
    remergeState1 =
      { connected := false, testRunning := true
        adapters := [("binance",
          { avg_latency_ms := some 10, success_rate := some 1,
            is_connected := some true, lastUpdate := some 1 })]
        latencyData := [("binance", [⟨0, 10⟩])]
        successData := [("binance", [⟨0, 100⟩])]
        startTime := 0, chartStartTime := some 1
        totalDataPoints := 0, lastUpdate := none } := by
  norm_num [remergeState1, updateAdapters, updateChartData, initDash, binanceSummary,
    alookup, setEntry, bufOf, capPush, latPoint, succPoint, elapsedAt, mergeAdapterRec,
    maxPoints, Option.orElse]

theorem remergeState2_eq :
    remergeState2 =
      { connected := false, testRunning := true
        adapters := [("binance",
          { avg_latency_ms := some 10, success_rate := some 1,
            is_connected := some true, lastUpdate := some 2 })]
        latencyData := [("binance", [⟨0, 10⟩, ⟨1, 10⟩])]
        successData := [("binance", [⟨0, 100⟩, ⟨1, 100⟩])]
        startTime := 0, chartStartTime := some 1
        totalDataPoints := 0, lastUpdate := none } := by
  norm_num [remergeState2, remergeState1_eq, updateAdapters, updateChartData,
    binanceSummary, alookup, setEntry, bufOf, capPush, latPoint, succPoint, elapsedAt,
    mergeAdapterRec, maxPoints, Option.orElse]

/-- C4 counterexample: re-merging the identical snapshot does produce a
second render.  The second merge appends a fresh point (with a new
elapsed-x), so the last-5-points fingerprint differs from the one
stored after the first merge and the watcher schedules a rebuild —
contradicting "re-merging an identical snapshot produces no second
render: the fingerprint is unchanged after the first merge". -/
theorem c4_identical_remerge_renders_again :
    calculateDataHash remergeState2.latencyData
      ≠ calculateDataHash remergeState1.latencyData
  ∧ (watchChartData
      (ChartComp.mk true false (calculateDataHash remergeState1.latencyData))
      remergeState2.latencyData).2 = true := by
  rw [remergeState1_eq, remergeState2_eq]
  refine ⟨by simp [calculateDataHash], ?_⟩
  simp [watchChartData, checkDataHasContent, calculateDataHash]

/-- C4 (amended): the chart rebuild is skipped exactly when the render
fingerprint — the serialization of the last `min(5, length)` points of
every nonempty series, compared by (string) equality — is unchanged;
re-merging an identical snapshot appends a fresh point, changes the
fingerprint, and therefore does trigger a second render (see the
counterexample), while re-delivery of an unchanged bundle is
skipped. -/
theorem c4_render_skipped_iff_fingerprint_unchanged :
    ∀ (c : ChartComp) (d : ChartBundle),
      c.mountedReady = true → checkDataHasContent d = true →
      ((watchChartData c d).2 = false ↔ calculateDataHash d = c.lastDataHash) := by
  intro c d h1 h2
  simp only [watchChartData, h1, h2, Bool.not_true, Bool.false_eq_true, if_false]
  by_cases h : calculateDataHash d = c.lastDataHash <;> simp [h]

theorem c4_render_skipped_iff_fingerprint_unchanged_witness :
    ((ChartComp.mk true false [("binance", [⟨0, 10⟩])]).mountedReady = true)
  ∧ (checkDataHasContent [("binance", [⟨0, 10⟩])] = true)
  ∧ ((watchChartData (ChartComp.mk true false [("binance", [⟨0, 10⟩])])
        [("binance", [⟨0, 10⟩])]).2 = false
      ↔ calculateDataHash [("binance", [⟨0, 10⟩])]
          = (ChartComp.mk true false [("binance", [⟨0, 10⟩])]).lastDataHash) :=
  ⟨rfl, rfl,
   c4_render_skipped_iff_fingerprint_unchanged
     (ChartComp.mk true false [("binance", [⟨0, 10⟩])])
     [("binance", [⟨0, 10⟩])] rfl rfl⟩

/-! ## Claim theorems: initial_data scenario and the epoch -/

theorem c5State1_eq :
    c5State1 =
      { connected := false, testRunning := true
        adapters := [("binance",
          { avg_latency_ms := some 10, success_rate := some 1,
            is_connected := some true, lastUpdate := some 5 })]
        latencyData := [("binance", [⟨0, 10⟩])]
        successData := [("binance", [⟨0, 100⟩])]
        startTime := 3, chartStartTime := some 5
        totalDataPoints := 1, lastUpdate := some 5 } := by
  norm_num [c5State1, afterInitialData, handleWebSocketMessage, applyStartTime,
    updateAdapters, updateChartData, initDash, binanceSummary, alookup, setEntry,
    bufOf, capPush, latPoint, succPoint, elapsedAt, mergeAdapterRec, maxPoints,
    Option.orElse]

theorem c5State2_eq :
    c5State2 =
      { connected := false, testRunning := true
        adapters := [("binance",
          { avg_latency_ms := some 10, success_rate := some 1,
            is_connected := some true, lastUpdate := some 7 })]
        latencyData := [("binance", [⟨0, 10⟩, ⟨2, 10⟩])]
        successData := [("binance", [⟨0, 100⟩, ⟨2, 100⟩])]
        startTime := 3, chartStartTime := some 5
        totalDataPoints := 2, lastUpdate := some 7 } := by
  norm_num [c5State2, c5State1_eq, handleWebSocketMessage, updateAdapters,
    updateChartData, binanceSummary, alookup, setEntry, bufOf, capPush, latPoint,
    succPoint, elapsedAt, mergeAdapterRec, maxPoints, Option.orElse]

/-- C5 counterexample: merging
`{type: "initial_data", start_time: 3, summary: {binance: …}}` at
wall-clock instant 5 sets the displayed start time to T0 = 3 but
establishes the chart epoch `chartStartTime` at the merge instant 5,
not at T0; a subsequent snapshot at instant 7 gets x = 2 = 7 − 5,
whereas elapsed seconds since the claimed epoch T0 would be
7 − 3 = 4 — so the x-coordinates are not elapsed time since an epoch
equal to T0. -/
theorem c5_epoch_is_first_merge_instant_not_T0 :
    c5State1.startTime = 3
  ∧ c5State1.chartStartTime = some 5
  ∧ c5State1.chartStartTime ≠ some 3
  ∧ bufOf c5State2.latencyData "binance" = [⟨0, 10⟩, ⟨2, 10⟩]
  ∧ ((2 : ℚ) ≠ 7 - 3) := by
  rw [c5State1_eq, c5State2_eq]
  refine ⟨rfl, rfl, by norm_num, by simp [bufOf, alookup], by norm_num⟩

/-- C5 (amended): merging
`{type:"initial_data", start_time:T0, summary:{binance:{avg_latency_ms:10,
success_rate:1.0, is_connected:true}}}` (with T0 truthy, i.e. nonzero)
into fresh state at wall-clock instant `now` yields
`avg_latency_ms = 10` for binance, sets the displayed start time to T0,
produces the latency series `[{x:0,y:10}]`, and establishes the chart
epoch at the first-merge instant `now` — so every subsequent point's
x-coordinate is elapsed seconds since that first-merge instant (not
since T0). -/
theorem c5_initial_data_merge :
    ∀ T0 now : ℚ, T0 ≠ 0 →
      ((alookup "binance" (afterInitialData T0 now).adapters).map
          AdapterRec.avg_latency_ms = some (some 10))
    ∧ (afterInitialData T0 now).startTime = T0
    ∧ bufOf (afterInitialData T0 now).latencyData "binance" = [⟨0, 10⟩]
    ∧ (afterInitialData T0 now).chartStartTime = some now
    ∧ (∀ (a : String) (m : AdapterMetrics) (now2 : ℚ),
        bufOf (updateChartData a m now2 (afterInitialData T0 now)).latencyData a
          = bufOf (afterInitialData T0 now).latencyData a
              ++ [⟨now2 - now, m.avg_latency_ms.getD 0⟩]) := by
  intro T0 now hT0
  have hst : afterInitialData T0 now =
      { connected := false, testRunning := true
        adapters := [("binance",
          { avg_latency_ms := some 10, success_rate := some 1,
            is_connected := some true, lastUpdate := some now })]
        latencyData := [("binance", [⟨0, 10⟩])]
        successData := [("binance", [⟨0, 100⟩])]
        startTime := T0, chartStartTime := some now
        totalDataPoints := 1, lastUpdate := some now } := by
    simp [afterInitialData, handleWebSocketMessage, applyStartTime, hT0, updateAdapters,
      updateChartData, initDash, binanceSummary, alookup, setEntry, bufOf, capPush,
      latPoint, succPoint, elapsedAt, mergeAdapterRec, maxPoints, Option.orElse]
  refine ⟨?_, ?_, ?_, ?_, ?_⟩
  · rw [hst]; simp [alookup]
  · rw [hst]
  · rw [hst]; simp [bufOf, alookup]
  · rw [hst]
  · intro a m now2
    rw [hst]
    rw [updateChartData_append]
    · simp
    · by_cases ha : a = "binance"
      · simp [bufOf, alookup, ha]
      · simp [bufOf, alookup, Ne.symm ha]

theorem c5_initial_data_merge_witness :
    ((3 : ℚ) ≠ 0)
  ∧ (afterInitialData 3 5).startTime = 3
  ∧ bufOf (afterInitialData 3 5).latencyData "binance" = [⟨0, 10⟩] :=
  ⟨by norm_num,
   (c5_initial_data_merge 3 5 (by norm_num)).2.1,
   (c5_initial_data_merge 3 5 (by norm_num)).2.2.1⟩

end Littlesnow
